import Mathlib

/-!
Verification of the CricScore T20 rating engine (`rating_engine/` plus the
match-construction helper in `app.py`).
The Python source is shallowly embedded over `ℚ`: Python `float` arithmetic is
modelled by exact rational arithmetic, Python `int` by `ℤ`, `round(x, 1)`
(round-half-to-even) by `pyRound1`, and `int(x)` truncation by `pyInt`.
The per-component "details" dictionaries built by the raters are display-only
breakdowns that never feed back into any rating, so they are not carried in
the embedding; every numeric path that produces a rating is translated.
Python `dict` lookups built by comprehension (`{r["name"]: r for r in xs}`)
are modelled as last-occurrence lookups (`(xs.filter ...).getLast?`), which is
exactly the overwrite behaviour of the comprehension.  The `set` of player
names iterated in `_merge_team_ratings` is modelled as a deduplicated list;
the final deterministic sort makes the produced list independent of the
iteration order whenever sort keys are distinct, and all statements proved
below are membership/lookup statements that do not depend on that order.
-/
/-- Python `int(x)` for a float/rational: truncation toward zero. -/
def pyInt (x : ℚ) : ℤ := if 0 ≤ x then ⌊x⌋ else ⌈x⌉

/-- Python `round(x)` to an integer: round half to even. -/
def pyRoundInt (x : ℚ) : ℤ :=
  let f := ⌊x⌋
  if x - f < 1/2 then f
  else if x - f > 1/2 then f + 1
  else if f % 2 = 0 then f else f + 1

/-- Python `round(x, 1)`: round half to even at one decimal place. -/
def pyRound1 (x : ℚ) : ℚ := (pyRoundInt (x * 10) : ℚ) / 10

/-- A rating value printed "to exactly one decimal place": an integer number
of tenths. -/
def one_dec (x : ℚ) : Prop := ∃ k : ℤ, x = (k : ℚ) / 10

/-- "Valid published rating": lies in `[0, 10]` and has exactly one decimal. -/
def goodRating (x : ℚ) : Prop := 0 ≤ x ∧ x ≤ 10 ∧ one_dec x

/- ──────────────────────── models.py ──────────────────────── -/
inductive PlayerRole
  | batter
  | bowler
  | batting_all_rounder
  | bowling_all_rounder
  | wicket_keeper
deriving DecidableEq, Repr

inductive DismissalType
  | not_out
  | bowled
  | caught
  | lbw
  | run_out
  | stumped
  | hit_wicket
  | retired_hurt
  | did_not_bat
deriving DecidableEq, Repr

inductive FieldingEventType
  | catch
  | direct_run_out
  | assisted_run_out
  | stumping
  | dropped_catch
  | misfield
deriving DecidableEq, Repr

/-- `BattingEntry`: a single batsman's innings. -/
structure BattingEntry where
  name : String
  runs : ℤ := 0
  balls : ℤ := 0
  fours : ℤ := 0
  sixes : ℤ := 0
  dismissal : DismissalType := .not_out
  batting_position : ℤ := 1
  role : PlayerRole := .batter
deriving DecidableEq, Repr

def BattingEntry.strike_rate (e : BattingEntry) : ℚ :=
  if e.balls = 0 then 0 else ((e.runs : ℚ) / (e.balls : ℚ)) * 100

def BattingEntry.boundary_runs (e : BattingEntry) : ℤ := e.fours * 4 + e.sixes * 6

def BattingEntry.boundary_percentage (e : BattingEntry) : ℚ :=
  if e.runs = 0 then 0 else min (((e.boundary_runs : ℚ) / (e.runs : ℚ)) * 100) 100

def BattingEntry.is_duck (e : BattingEntry) : Bool :=
  e.runs = 0 && !(e.dismissal = .not_out || e.dismissal = .retired_hurt
    || e.dismissal = .did_not_bat)

def BattingEntry.is_golden_duck (e : BattingEntry) : Bool :=
  e.is_duck && e.balls ≤ 1

def BattingEntry.did_bat (e : BattingEntry) : Bool := e.dismissal ≠ .did_not_bat

/-- `BowlingEntry`: a single bowler's spell. `overs` uses the cricket
`overs.balls` notation (fractional digit is legal balls, base 6). -/
structure BowlingEntry where
  name : String
  overs : ℚ := 0
  maidens : ℤ := 0
  runs_conceded : ℤ := 0
  wickets : ℤ := 0
  wides : ℤ := 0
  no_balls : ℤ := 0
  role : PlayerRole := .bowler
  dismissed_batsmen_runs : List ℤ := []
deriving DecidableEq, Repr

def BowlingEntry.total_balls (e : BowlingEntry) : ℤ :=
  let full_overs := pyInt e.overs
  let part := pyRoundInt ((e.overs - (full_overs : ℚ)) * 10)
  full_overs * 6 + part

def BowlingEntry.economy_rate (e : BowlingEntry) : ℚ :=
  if e.total_balls = 0 then 0
  else
    let overs_decimal : ℚ := (e.total_balls : ℚ) / 6
    (e.runs_conceded : ℚ) / overs_decimal

def BowlingEntry.did_bowl (e : BowlingEntry) : Bool := e.total_balls > 0

/-- `FieldingEvent`: a single fielding event for a player. -/
structure FieldingEvent where
  player_name : String
  event_type : FieldingEventType
deriving DecidableEq, Repr

/-- `Innings`: one innings of a T20 match. -/
structure Innings where
  team_name : String
  total_runs : ℤ
  total_wickets : ℤ
  total_overs : ℚ
  batting : List BattingEntry := []
  bowling : List BowlingEntry := []
  fielding_events : List FieldingEvent := []
  is_chasing : Bool := false
deriving DecidableEq, Repr

def Innings.run_rate (i : Innings) : ℚ :=
  let balls := pyInt i.total_overs * 6 + pyRoundInt ((i.total_overs - (pyInt i.total_overs : ℚ)) * 10)
  if balls = 0 then 0 else ((i.total_runs : ℚ) / (balls : ℚ)) * 6

def Innings.match_strike_rate (i : Innings) : ℚ := i.run_rate * 100 / 6

/-- `Match`: a complete T20 match. -/
structure Match where
  team1_name : String
  team2_name : String
  first_innings : Innings := ⟨"", 0, 0, 0, [], [], [], false⟩
  second_innings : Innings := ⟨"", 0, 0, 0, [], [], [], false⟩
  winner : String := ""
  toss_winner : String := ""
  toss_decision : String := ""
  venue : String := ""
deriving DecidableEq, Repr

def pyBalls (overs : ℚ) : ℤ :=
  pyInt overs * 6 + pyRoundInt ((overs - (pyInt overs : ℚ)) * 10)

def Match.match_economy (m : Match) : ℚ :=
  let total_runs := m.first_innings.total_runs + m.second_innings.total_runs
  let total_balls := pyBalls m.first_innings.total_overs + pyBalls m.second_innings.total_overs
  if total_balls = 0 then 0
  else
    let total_overs : ℚ := (total_balls : ℚ) / 6
    (total_runs : ℚ) / total_overs

def Match.match_run_rate (m : Match) : ℚ := m.match_economy

def Match.required_run_rate (m : Match) : ℚ :=
  let target := m.first_innings.total_runs + 1
  (target : ℚ) / 20 * 6 / 6

/-- `PlayerRating`: final computed rating for a player (display-only breakdown
dictionaries omitted). -/
structure PlayerRating where
  name : String
  team : String
  role : PlayerRole
  overall_rating : ℚ := 5
  batting_rating : ℚ := 5
  bowling_rating : ℚ := 5
  fielding_rating : ℚ := 5
  did_bat : Bool := false
  did_bowl : Bool := false
deriving DecidableEq, Repr

/- ──────────────────────── context.py ──────────────────────── -/
/-- `MatchContext`: computed contextual metrics for a match. -/
structure MatchContext where
  match_economy : ℚ := 8
  match_run_rate : ℚ := 8
  first_innings_rr : ℚ := 8
  second_innings_rr : ℚ := 8
  target : ℤ := 0
  required_run_rate : ℚ := 8
  chase_successful : Bool := false
  is_high_scoring : Bool := false
  is_low_scoring : Bool := false
  first_batting_team_won : Bool := false
  winner : String := ""
deriving DecidableEq, Repr

def analyze_match_context (m : Match) : MatchContext :=
  let fi := m.first_innings
  let si := m.second_innings
  let target := fi.total_runs + 1
  { match_economy := m.match_economy
    match_run_rate := m.match_run_rate
    first_innings_rr := fi.run_rate
    second_innings_rr := si.run_rate
    target := target
    required_run_rate := if fi.total_runs > 0 then (target : ℚ) / 20 else 0
    chase_successful := si.total_runs ≥ target
    is_high_scoring := fi.total_runs + si.total_runs ≥ 350
    is_low_scoring := fi.total_runs + si.total_runs < 280
    first_batting_team_won := m.winner = fi.team_name
    winner := m.winner }

def get_chase_pressure_factor (required_rr : ℚ) : ℚ :=
  if required_rr ≤ 6 then 0
  else if required_rr ≤ 8 then 0.1 + (required_rr - 6) * 0.05
  else if required_rr ≤ 10 then 0.2 + (required_rr - 8) * 0.15
  else if required_rr ≤ 12 then 0.5 + (required_rr - 10) * 0.1
  else min 1 (0.7 + (required_rr - 12) * 0.1)

def get_economy_context_adjustment (bowler_economy match_economy : ℚ) : ℚ :=
  if match_economy = 0 then 0
  else
    let diff := match_economy - bowler_economy
    if diff ≥ 5 then 2.5
    else if diff ≥ 3 then 2
    else if diff ≥ 2 then 1.5
    else if diff ≥ 1 then 1
    else if diff ≥ 0 then diff * 0.8
    else if diff ≥ -1 then diff * 0.5
    else if diff ≥ -2 then -0.5 + (diff + 1) * 0.5
    else if diff ≥ -4 then -1 + (diff + 2) * 0.25
    else max (-2) (-1.5 + (diff + 4) * 0.1)

def get_strike_rate_context_adjustment (batsman_sr match_sr : ℚ) : ℚ :=
  if match_sr = 0 then 0
  else
    let ratio := batsman_sr / match_sr
    if ratio ≥ 1.6 then 2
    else if ratio ≥ 1.4 then 1.5
    else if ratio ≥ 1.2 then 1
    else if ratio ≥ 1 then (ratio - 1) * 5
    else if ratio ≥ 0.8 then (ratio - 1) * 2.5
    else if ratio ≥ 0.6 then -0.5 + (ratio - 0.8) * 2.5
    else max (-1.5) (-1 + (ratio - 0.6) * 2.5)

/- ──────────────────────── batting.py ──────────────────────── -/
/-- `_runs_component`: piecewise-linear interpolation of runs into `[0, 3]`,
written as a fold over the breakpoint list exactly as the source loop. -/
def runs_breakpoints : List (ℤ × ℚ) :=
  [(5, 0.2), (10, 0.4), (15, 0.7), (20, 1.0), (30, 1.5), (40, 2.0),
   (50, 2.5), (75, 2.8), (100, 3.0)]

def runs_component_go (runs : ℤ) (prev_r : ℤ) (prev_s : ℚ) : List (ℤ × ℚ) → ℚ
  | [] => 3
  | (bp_runs, bp_score) :: rest =>
      if runs ≤ bp_runs then
        let frac : ℚ := ((runs - prev_r : ℤ) : ℚ) / ((bp_runs - prev_r : ℤ) : ℚ)
        prev_s + frac * (bp_score - prev_s)
      else runs_component_go runs bp_runs bp_score rest

def runs_component (runs : ℤ) : ℚ :=
  if runs ≤ 0 then 0
  else runs_component_go runs 0 0 runs_breakpoints

/-- `calculate_batting_rating`: rating only (display breakdown omitted). -/
def calculate_batting_rating (entry : BattingEntry) (ctx : MatchContext)
    (is_winning_team : Bool) (is_chasing : Bool) : ℚ :=
  if !entry.did_bat then 5
  else
    let base : ℚ := 5
    let is_bowler := entry.role = .bowler ∨ entry.role = .bowling_all_rounder
    let runs_score := runs_component entry.runs
    let sr_score : ℚ :=
      if entry.balls ≥ 2 then
        let match_sr := if ctx.match_run_rate > 0 then ctx.match_run_rate * 100 / 6 else 130
        let s := get_strike_rate_context_adjustment entry.strike_rate match_sr
        let s := if entry.balls < 4 ∧ s < 0 then 0 else s
        if entry.balls < 5 then s * 0.35
        else if entry.balls < 10 then s * 0.5
        else if entry.balls < 15 then s * 0.75
        else s
      else 0
    let sr_score := if is_bowler ∧ sr_score < 0 then sr_score * 0.5 else sr_score
    let boundary_score : ℚ :=
      if entry.balls ≥ 2 ∧ entry.runs > 0 then
        let bp := entry.boundary_percentage
        let b : ℚ :=
          if bp ≥ 70 then 1
          else if bp ≥ 60 then 0.75
          else if bp ≥ 50 then 0.5
          else if bp ≥ 35 then 0.2
          else if bp ≥ 20 then 0
          else -0.3
        let b := if entry.balls < 4 ∧ b < 0 then 0 else b
        if entry.balls < 5 then b * 0.35
        else if entry.balls < 10 then b * 0.5
        else b
      else 0
    let boundary_score := if is_bowler ∧ boundary_score < 0 then boundary_score * 0.5 else boundary_score
    let min_balls_anchor : ℤ :=
      if entry.batting_position ≤ 2 then 30
      else if entry.batting_position ≤ 4 then 25
      else if entry.batting_position ≤ 6 then 20
      else 15
    let min_balls_part : ℤ :=
      if entry.batting_position ≤ 2 then 25
      else if entry.batting_position ≤ 4 then 20
      else if entry.batting_position ≤ 6 then 15
      else 12
    let anchor_score : ℚ :=
      if entry.balls ≥ min_balls_anchor then
        if entry.strike_rate ≥ 120 then 0.5
        else if entry.strike_rate ≥ 100 then 0.2
        else -0.3
      else if entry.balls ≥ min_balls_part then
        if entry.strike_rate ≥ 130 then 0.3
        else if entry.strike_rate < 90 then -0.2
        else 0
      else 0
    let position_score : ℚ :=
      if entry.batting_position ≥ 7 ∧ entry.runs ≥ 15 then min 0.5 ((entry.runs : ℚ) * 0.02)
      else if entry.batting_position ≥ 5 ∧ entry.runs ≥ 20 then min 0.3 ((entry.runs : ℚ) * 0.01)
      else 0
    let notout_score : ℚ :=
      if is_chasing ∧ entry.dismissal = .not_out ∧ entry.runs > 0 then
        if is_winning_team then 0.5 else 0.15
      else 0
    let chase_score : ℚ :=
      if is_chasing ∧ entry.balls ≥ 2 then
        let pressure := get_chase_pressure_factor ctx.required_run_rate
        let rrr_as_sr := if ctx.required_run_rate > 0 then ctx.required_run_rate * 100 / 6 else 130
        let c : ℚ :=
          if entry.strike_rate ≥ rrr_as_sr then pressure * 1
          else if entry.strike_rate ≥ rrr_as_sr * 0.7 then pressure * 0.3
          else -pressure * 0.5
        let c := if entry.balls < 4 ∧ c < 0 then 0 else c
        if entry.balls < 5 then c * 0.5 else c
      else 0
    let chase_score := if is_bowler ∧ chase_score < 0 then chase_score * 0.5 else chase_score
    let cameo_score : ℚ :=
      if entry.balls ≥ 2 ∧ entry.balls ≤ 10 ∧ entry.strike_rate ≥ 180 then
        let impact := (entry.runs : ℚ) / (entry.balls : ℚ)
        let c : ℚ :=
          if impact ≥ 3 then 0.8
          else if impact ≥ 2.5 then 0.6
          else if impact ≥ 2 then 0.4
          else if impact ≥ 1.5 then 0.2
          else 0
        if entry.sixes ≥ 1 ∧ entry.balls ≤ 5 then c + 0.2 else c
      else 0
    let duck_score : ℚ :=
      if entry.is_golden_duck then -2
      else if entry.is_duck then -1
      else 0
    let total := base + runs_score + sr_score + boundary_score + anchor_score + position_score
      + notout_score + chase_score + cameo_score + duck_score
    let total := max 0 (min 10 total)
    pyRound1 total

/- ──────────────────────── bowling.py ──────────────────────── -/
def wickets_component (wickets : ℤ) : ℚ :=
  if wickets = 0 then 0
  else if wickets = 1 then 1
  else if wickets = 2 then 1.8
  else if wickets = 3 then 2.5
  else if wickets = 4 then 2.8
  else if wickets = 5 then 3
  else 3

def wicket_quality_points (runs : ℤ) : ℚ :=
  if runs ≥ 50 then 0.4
  else if runs ≥ 30 then 0.3
  else if runs ≥ 15 then 0.15
  else 0.05

/-- `calculate_bowling_rating`: rating only (display breakdown omitted; the
`is_winning_team` flag is recorded in the breakdown with score `0.0` and never
affects the rating). -/
def calculate_bowling_rating (entry : BowlingEntry) (ctx : MatchContext)
    (is_winning_team : Bool) : ℚ :=
  if !entry.did_bowl then 5
  else
    let base : ℚ := 5
    let wicket_score := wickets_component entry.wickets
    let eco_score := get_economy_context_adjustment entry.economy_rate ctx.match_economy
    let overs_bowled : ℚ := (entry.total_balls : ℚ) / 6
    let eco_score :=
      if overs_bowled < 2 then eco_score * 0.5
      else if overs_bowled < 3 then eco_score * 0.75
      else eco_score
    let maiden_score := min ((entry.maidens : ℚ) * 1.5) 3
    let quota_score : ℚ :=
      if overs_bowled ≥ 4 then 0.1
      else if overs_bowled ≥ 3 then 0.05
      else 0
    let wq_score : ℚ :=
      if entry.dismissed_batsmen_runs ≠ [] then
        min ((entry.dismissed_batsmen_runs.map wicket_quality_points).sum) 1
      else 0
    let extras_score : ℚ := -((entry.wides : ℚ) * 0.05 + (entry.no_balls : ℚ) * 0.2)
    let total := base + wicket_score + eco_score + maiden_score
      + quota_score + wq_score + extras_score
    let total := max 0 (min 10 total)
    pyRound1 total

/- ──────────────────────── fielding.py ──────────────────────── -/
def event_points : FieldingEventType → ℚ
  | .catch => 0.4
  | .direct_run_out => 1.5
  | .assisted_run_out => 0.75
  | .stumping => 1
  | .dropped_catch => -1.5
  | .misfield => -0.5

/-- `calculate_fielding_rating`: rating only (display breakdown omitted). -/
def calculate_fielding_rating (player_name : String) (events : List FieldingEvent) : ℚ :=
  let base : ℚ := 5
  let player_events := events.filter (fun e => e.player_name == player_name)
  let total_adjustment := (player_events.map (fun e => event_points e.event_type)).sum
  let total := base + total_adjustment
  let total := max 0 (min 10 total)
  pyRound1 total

/- ──────────────────────── calculator.py ──────────────────────── -/
/-- `ROLE_WEIGHTS`: (batting_weight, bowling_weight, fielding_weight). -/
def role_weights : PlayerRole → ℚ × ℚ × ℚ
  | .batter => (0.80, 0.05, 0.15)
  | .bowler => (0.05, 0.80, 0.15)
  | .batting_all_rounder => (0.55, 0.30, 0.15)
  | .bowling_all_rounder => (0.30, 0.55, 0.15)
  | .wicket_keeper => (0.75, 0.00, 0.25)

/-- One entry of the `batters` list built by `_rate_innings_players`
(the keys of the Python dict that the aggregator reads). -/
structure RatedBatter where
  name : String
  role : PlayerRole
  rating : ℚ
  did_bat : Bool
  balls : ℤ
deriving DecidableEq, Repr

/-- One entry of the `bowlers` list built by `_rate_innings_players`. -/
structure RatedBowler where
  name : String
  role : PlayerRole
  rating : ℚ
  did_bowl : Bool
  total_balls : ℤ
deriving DecidableEq, Repr

/-- Result of `_rate_innings_players`; `fielders` is the name-keyed dict. -/
structure InningsRatings where
  batters : List RatedBatter
  bowlers : List RatedBowler
  fielders : String → Option ℚ

/-- `_rate_innings_players` (the `team_name`/`bowling_team_name` parameters of
the source are unused there and omitted). -/
def rate_innings_players (batting_innings bowling_innings : Innings)
    (fielding_events : List FieldingEvent) (ctx : MatchContext)
    (is_batting_team_winning is_bowling_team_winning : Bool)
    (is_chasing : Bool) : InningsRatings :=
  let batters := batting_innings.batting.map (fun entry =>
    { name := entry.name
      role := entry.role
      rating := calculate_batting_rating entry ctx is_batting_team_winning is_chasing
      did_bat := entry.did_bat
      balls := entry.balls : RatedBatter })
  let bowlers := bowling_innings.bowling.map (fun entry =>
    { name := entry.name
      role := entry.role
      rating := calculate_bowling_rating entry ctx is_bowling_team_winning
      did_bowl := entry.did_bowl
      total_balls := entry.total_balls : RatedBowler })
  let fielder_names := fielding_events.map (·.player_name)
    ++ bowling_innings.bowling.map (·.name)
    ++ bowling_innings.batting.map (·.name)
  let fielders := fun n =>
    if n ∈ fielder_names then some (calculate_fielding_rating n fielding_events) else none
  { batters := batters, bowlers := bowlers, fielders := fielders }

/-- The loop body of `_merge_team_ratings` for one player name: merge that
player's batting/bowling/fielding sub-ratings into a `PlayerRating`. -/
def merge_player (team_name n : String) (bat_info : Option RatedBatter)
    (bowl_info : Option RatedBowler) (field_info : Option ℚ) : PlayerRating :=
  let role := match bat_info with
    | some b => b.role
    | none => match bowl_info with
      | some bo => bo.role
      | none => PlayerRole.batter
  let did_bat := match bat_info with
    | some b => b.did_bat
    | none => false
  let did_bowl := match bowl_info with
    | some bo => bo.did_bowl
    | none => false
  let bat_rating := match bat_info with
    | some b => b.rating
    | none => (5 : ℚ)
  let bowl_rating := match bowl_info with
    | some bo => bo.rating
    | none => (5 : ℚ)
  let field_rating := match field_info with
    | some q => q
    | none => (5 : ℚ)
  let bat_balls := match bat_info with
    | some b => b.balls
    | none => (0 : ℤ)
  let bowl_balls := match bowl_info with
    | some bo => bo.total_balls
    | none => (0 : ℤ)
  let is_all_rounder : Bool :=
    role == PlayerRole.batting_all_rounder || role == PlayerRole.bowling_all_rounder
  let is_bowler_role : Bool :=
    role == PlayerRole.bowler || role == PlayerRole.bowling_all_rounder
  let w :=
    if !is_all_rounder then
      if did_bat && decide (bowl_balls ≥ 6) && !is_bowler_role then
        ((0.75 : ℚ), (0.15 : ℚ), (0.1 : ℚ))
      else if did_bowl && decide (bat_balls ≥ 6) && is_bowler_role then
        ((0.20 : ℚ), (0.65 : ℚ), (0.15 : ℚ))
      else role_weights role
    else role_weights role
  let w :=
    if is_bowler_role && did_bat && decide (bat_balls < 6) then
      let total_w := w.2.1 + w.2.2
      if total_w > 0 then
        (0, w.2.1 + w.1 * w.2.1 / total_w, w.2.2 + w.1 * w.2.2 / total_w)
      else (0, w.2.1, w.2.2)
    else w
  let bat_w := w.1
  let bowl_w := w.2.1
  let field_w := w.2.2
  let overall : ℚ :=
    if !did_bat && !did_bowl then field_rating
    else if !did_bat then
      let total_w := bowl_w + field_w
      if total_w > 0 then (bowl_rating * bowl_w + field_rating * field_w) / total_w else 5
    else if !did_bowl then
      let total_w := bat_w + field_w
      if total_w > 0 then (bat_rating * bat_w + field_rating * field_w) / total_w else 5
    else bat_rating * bat_w + bowl_rating * bowl_w + field_rating * field_w
  let overall := max 0 (min 10 (pyRound1 overall))
  { name := n
    team := team_name
    role := role
    overall_rating := overall
    batting_rating := bat_rating
    bowling_rating := bowl_rating
    fielding_rating := field_rating
    did_bat := did_bat
    did_bowl := did_bowl }

/-- Sort-key comparator for the final output ordering
(batting order first, then bowling order; Python tuple comparison). -/
def sortKeyLe (k1 k2 : ℕ × ℕ) : Bool :=
  k1.1 < k2.1 || (k1.1 == k2.1 && k1.2 ≤ k2.2)

/-- `_merge_team_ratings`. Python iterates over the *set* of names and then
sorts; sort keys are injective on names here, so modelling the set as a
deduplicated list yields the same sorted output. -/
def merge_team_ratings (team_name : String) (batting_ratings : List RatedBatter)
    (bowling_ratings : List RatedBowler)
    (fielding_ratings : String → Option ℚ) : List PlayerRating :=
  let batting_map := fun n => (batting_ratings.filter (fun r => r.name == n)).getLast?
  let bowling_map := fun n => (bowling_ratings.filter (fun r => r.name == n)).getLast?
  let all_names := (batting_ratings.map (·.name) ++ bowling_ratings.map (·.name)).dedup
  let results := all_names.map (fun n =>
    merge_player team_name n (batting_map n) (bowling_map n) (fielding_ratings n))
  let batting_order := fun n =>
    (((batting_ratings.enum.filter (fun p => p.2.name == n)).getLast?.map (·.1)).getD 999)
  let bowling_order := fun n =>
    (((bowling_ratings.enum.filter (fun p => p.2.name == n)).getLast?.map (·.1)).getD 999)
  results.mergeSort (fun a b =>
    sortKeyLe (batting_order a.name, bowling_order a.name)
      (batting_order b.name, bowling_order b.name))

/-- One team's slice of the result dict of `calculate_match_ratings`. -/
structure TeamRatings where
  name : String
  players : List PlayerRating

/-- The result dict of `calculate_match_ratings`. -/
structure MatchRatings where
  team1 : TeamRatings
  team2 : TeamRatings
  context : MatchContext

/-- `calculate_match_ratings`: rate both innings and merge per team. -/
def calculate_match_ratings (m : Match) : MatchRatings :=
  let ctx := analyze_match_context m
  let fi := m.first_innings
  let si := m.second_innings
  let team1_won := m.winner == fi.team_name
  let team2_won := m.winner == si.team_name
  let team1_ratings := rate_innings_players fi si fi.fielding_events ctx team1_won team2_won false
  let team2_ratings := rate_innings_players si fi si.fielding_events ctx team2_won team1_won true
  let team1_final := merge_team_ratings fi.team_name team1_ratings.batters
    team2_ratings.bowlers team2_ratings.fielders
  let team2_final := merge_team_ratings si.team_name team2_ratings.batters
    team1_ratings.bowlers team1_ratings.fielders
  { team1 := { name := fi.team_name, players := team1_final }
    team2 := { name := si.team_name, players := team2_final }
    context := ctx }

/- ──────────── Concrete instances and spec-side definitions ──────────── -/

/-- A match whose first innings scored zero runs (all other data arbitrary
but well-formed), used to refute C7's zero-runs corner case. -/
def zeroRunsMatch : Match :=
  { team1_name := "T1", team2_name := "T2"
    first_innings := { team_name := "T1", total_runs := 0, total_wickets := 10
                       total_overs := 10 }
    second_innings := { team_name := "T2", total_runs := 1, total_wickets := 0
                        total_overs := 0.1, is_chasing := true }
    winner := "T2" }

/-- The runs-component interpolation written directly from the spec's words:
piecewise-linear between the control points
(0,0),(5,0.2),(10,0.4),(15,0.7),(20,1.0),(30,1.5),(40,2.0),(50,2.5),
(75,2.8),(100,3.0), clamped at 3.0 beyond 100 runs. -/
def runs_component_interp (runs : ℤ) : ℚ :=
  if runs ≤ 0 then 0
  else if runs ≤ 5 then 0 + ((runs - 0 : ℤ) : ℚ) / 5 * (0.2 - 0)
  else if runs ≤ 10 then 0.2 + ((runs - 5 : ℤ) : ℚ) / 5 * (0.4 - 0.2)
  else if runs ≤ 15 then 0.4 + ((runs - 10 : ℤ) : ℚ) / 5 * (0.7 - 0.4)
  else if runs ≤ 20 then 0.7 + ((runs - 15 : ℤ) : ℚ) / 5 * (1.0 - 0.7)
  else if runs ≤ 30 then 1.0 + ((runs - 20 : ℤ) : ℚ) / 10 * (1.5 - 1.0)
  else if runs ≤ 40 then 1.5 + ((runs - 30 : ℤ) : ℚ) / 10 * (2.0 - 1.5)
  else if runs ≤ 50 then 2.0 + ((runs - 40 : ℤ) : ℚ) / 10 * (2.5 - 2.0)
  else if runs ≤ 75 then 2.5 + ((runs - 50 : ℤ) : ℚ) / 25 * (2.8 - 2.5)
  else if runs ≤ 100 then 2.8 + ((runs - 75 : ℤ) : ℚ) / 25 * (3.0 - 2.8)
  else 3

/-- Concrete one-player match for the C2 witness. -/
def c2WitnessMatch : Match :=
  { team1_name := "A", team2_name := "B"
    first_innings := { team_name := "A", total_runs := 0, total_wickets := 0
                       total_overs := 0
                       batting := [{ name := "P1", dismissal := .did_not_bat }] }
    second_innings := { team_name := "B", total_runs := 0, total_wickets := 0
                        total_overs := 0, is_chasing := true }
    winner := "" }

/-- The record `calculate_match_ratings c2WitnessMatch` produces for "P1". -/
def c2WitnessRating : PlayerRating :=
  { name := "P1", team := "A", role := .batter, overall_rating := 5,
    batting_rating := 5, bowling_rating := 5, fielding_rating := 5,
    did_bat := false, did_bowl := false }

/-- A match written in the SPEC's data-model convention: each innings'
bowling entries belong to the team that bowled during that innings, so the
single first-innings bowling entry "P2" is a player of the second-batting
team "T2". -/
def c1Match : Match :=
  { team1_name := "T1", team2_name := "T2"
    first_innings := { team_name := "T1", total_runs := 100, total_wickets := 2
                       total_overs := 20
                       batting := [{ name := "A1", runs := 50, balls := 40 }]
                       bowling := [{ name := "P2", overs := 4, runs_conceded := 30
                                     wickets := 1 }] }
    second_innings := { team_name := "T2", total_runs := 101, total_wickets := 3
                        total_overs := 19
                        batting := [{ name := "B1", runs := 30, balls := 20 }]
                        bowling := [{ name := "P1", overs := 4, runs_conceded := 25
                                      wickets := 2 }]
                        is_chasing := true }
    winner := "T2" }

/-- A match with a fielding-only participant: "F" appears in a fielding event
of the second innings (so fielded for team1) but in no batting and no bowling
entry of either innings. -/
def c3Match : Match :=
  { team1_name := "A", team2_name := "B"
    first_innings := { team_name := "A", total_runs := 0, total_wickets := 0
                       total_overs := 0
                       batting := [{ name := "P1", dismissal := .did_not_bat }] }
    second_innings := { team_name := "B", total_runs := 0, total_wickets := 0
                        total_overs := 0
                        fielding_events := [⟨"F", .catch⟩]
                        is_chasing := true }
    winner := "" }

/-- The record `calculate_match_ratings c3Match` produces for "P1". -/
def c3WitnessRating : PlayerRating :=
  { name := "P1", team := "A", role := .batter, overall_rating := 5,
    batting_rating := 5, bowling_rating := 5, fielding_rating := 5,
    did_bat := false, did_bowl := false }

/-- The match `m` with every first-innings batting entry named `p` removed
(everything else unchanged). -/
def removeBatting (m : Match) (p : String) : Match :=
  { m with first_innings :=
      { m.first_innings with
          batting := m.first_innings.batting.filter (fun b => !(b.name == p)) } }

/-- The match `m` with every second-innings batting entry named `p` removed
(everything else unchanged). -/
def removeBattingSecond (m : Match) (p : String) : Match :=
  { m with second_innings :=
      { m.second_innings with
          batting := m.second_innings.batting.filter (fun b => !(b.name == p)) } }

/-- The concrete match for the C6 witness: team1's bowler "PB" bowls 4 overs
and bats a 3-ball cameo in the first innings; team2's bowler "Q1" bowls
4 overs and bats a 2-ball cameo in the second innings. -/
def c6WitnessMatch : Match :=
  { team1_name := "T1", team2_name := "T2"
    first_innings := { team_name := "T1", total_runs := 150, total_wickets := 5
                       total_overs := 20
                       batting := [{ name := "A1", runs := 80, balls := 50 },
                                   { name := "PB", runs := 10, balls := 3, dismissal := .caught
                                     batting_position := 9, role := .bowler }]
                       bowling := [{ name := "PB", overs := 4, runs_conceded := 20
                                     wickets := 2, role := .bowler }] }
    second_innings := { team_name := "T2", total_runs := 140, total_wickets := 7
                        total_overs := 20
                        batting := [{ name := "B1", runs := 70, balls := 45 },
                                    { name := "Q1", runs := 5, balls := 2, dismissal := .bowled
                                      batting_position := 10, role := .bowler }]
                        bowling := [{ name := "Q1", overs := 4, runs_conceded := 35
                                      wickets := 1 }]
                        fielding_events := [⟨"PB", .catch⟩]
                        is_chasing := true }
    winner := "T1" }

theorem pyRoundInt_ge (x : ℚ) : x - 1/2 ≤ (pyRoundInt x : ℚ) := by
  unfold pyRoundInt
  have h1 := Int.floor_le x
  have h2 := Int.lt_floor_add_one x
  dsimp only
  split_ifs <;> push_cast <;> linarith

theorem pyRoundInt_le (x : ℚ) : (pyRoundInt x : ℚ) ≤ x + 1/2 := by
  unfold pyRoundInt
  have h1 := Int.floor_le x
  have h2 := Int.lt_floor_add_one x
  dsimp only
  split_ifs <;> push_cast <;> linarith

theorem pyRoundInt_intCast (n : ℤ) : pyRoundInt (n : ℚ) = n := by
  unfold pyRoundInt
  have : ⌊(n : ℚ)⌋ = n := Int.floor_intCast n
  rw [this]
  norm_num

theorem goodRating_five : goodRating 5 :=
  ⟨by norm_num, by norm_num, 50, by norm_num⟩

/-- Rater output shape: clamp to `[0,10]` first, then round to one decimal. -/
theorem goodRating_round_clamp (t : ℚ) : goodRating (pyRound1 (max 0 (min 10 t))) := by
  set z := max 0 (min 10 t) with hz
  have hz0 : 0 ≤ z := le_max_left 0 _
  have hz10 : z ≤ 10 := by
    rw [hz]
    rcases le_total 0 (min 10 t) with h | h
    · rw [max_eq_right h]; exact min_le_left 10 t
    · rw [max_eq_left h]; norm_num
  have hge := pyRoundInt_ge (z * 10)
  have hle := pyRoundInt_le (z * 10)
  set n := pyRoundInt (z * 10) with hn
  have hn0 : 0 ≤ n := by
    have h : (-1 : ℚ) < (n : ℚ) := by linarith
    have : (-1 : ℤ) < n := by exact_mod_cast h
    omega
  have hn100 : n ≤ 100 := by
    have h : (n : ℚ) < 101 := by linarith
    have : n < 101 := by exact_mod_cast h
    omega
  refine ⟨?_, ?_, n, rfl⟩
  · unfold pyRound1
    rw [← hn]
    positivity
  · unfold pyRound1
    rw [← hn]
    rw [div_le_iff₀ (by norm_num : (0:ℚ) < 10)]
    exact_mod_cast hn100

/-- Aggregator output shape: round to one decimal first, then clamp. -/
theorem goodRating_clamp_round (t : ℚ) : goodRating (max 0 (min 10 (pyRound1 t))) := by
  constructor
  · exact le_max_left 0 _
  constructor
  · rcases le_total 0 (min 10 (pyRound1 t)) with h | h
    · rw [max_eq_right h]; exact min_le_left _ _
    · rw [max_eq_left h]; norm_num
  · rcases le_total (pyRound1 t) 10 with h | h
    · rcases le_total 0 (pyRound1 t) with h0 | h0
      · rw [min_eq_right h, max_eq_right h0]
        exact ⟨pyRoundInt (t * 10), rfl⟩
      · rw [min_eq_right h, max_eq_left h0]
        exact ⟨0, by norm_num⟩
    · rw [min_eq_left h]
      rw [max_eq_right (by norm_num : (0:ℚ) ≤ 10)]
      exact ⟨100, by norm_num⟩

/-- A value that is already a clamped one-decimal rating is a fixed point of
the aggregator's round-then-clamp step. -/
theorem clamp_round_fixed (x : ℚ) (hx : goodRating x) : max 0 (min 10 (pyRound1 x)) = x := by
  obtain ⟨h0, h10, k, hk⟩ := hx
  have hr : pyRound1 x = x := by
    unfold pyRound1
    rw [hk]
    have : (k : ℚ) / 10 * 10 = (k : ℚ) := by field_simp
    rw [this, pyRoundInt_intCast]
  rw [hr, min_eq_right h10, max_eq_right h0]

/- ──────────────────────── Claim C4 ──────────────────────── -/
/-- C4 counterexample: the claim says `get_chase_pressure_factor r = 1.0` for
every `r ≥ 12`, but at the concrete input `r = 12` the code returns `0.7`. -/
theorem c4_chase_pressure_counterexample :
    get_chase_pressure_factor 12 = 7/10 ∧ get_chase_pressure_factor 12 ≠ 1 := by
  constructor <;> norm_num [get_chase_pressure_factor]

/-- C4 (amended): for non-negative required run rates,
`get_chase_pressure_factor` is 0 for `r ≤ 6`, monotonically nondecreasing,
and equals 1 exactly from `r ≥ 15` on (not from `r ≥ 12` as claimed: on
`[12, 15)` the value is `0.5 + (r-10)·0.1` resp. `0.7 + (r-12)·0.1 < 1`). -/
theorem c4_chase_pressure_amended :
    (∀ r : ℚ, 0 ≤ r → r ≤ 6 → get_chase_pressure_factor r = 0)
    ∧ (∀ r s : ℚ, 0 ≤ r → r ≤ s →
        get_chase_pressure_factor r ≤ get_chase_pressure_factor s)
    ∧ (∀ r : ℚ, 15 ≤ r → get_chase_pressure_factor r = 1) := by
  refine ⟨?_, ?_, ?_⟩
  · intro r _ h6
    unfold get_chase_pressure_factor
    rw [if_pos h6]
  · intro r s _ hrs
    unfold get_chase_pressure_factor
    split_ifs <;>
      first
        | linarith
        | (apply le_min <;> linarith)
        | (exact min_le_min (le_refl 1) (by linarith))
  · intro r h15
    unfold get_chase_pressure_factor
    have h6 : ¬ (r ≤ 6) := by linarith
    have h8 : ¬ (r ≤ 8) := by linarith
    have h10 : ¬ (r ≤ 10) := by linarith
    have h12 : ¬ (r ≤ 12) := by linarith
    rw [if_neg h6, if_neg h8, if_neg h10, if_neg h12, min_eq_left (by linarith)]

/-- C4 witness: the amended theorem applied at concrete inputs. -/
theorem c4_chase_pressure_witness :
    get_chase_pressure_factor 3 = 0
    ∧ get_chase_pressure_factor 7 ≤ get_chase_pressure_factor 9
    ∧ get_chase_pressure_factor 16 = 1 :=
  ⟨c4_chase_pressure_amended.1 3 (by norm_num) (by norm_num),
   c4_chase_pressure_amended.2.1 7 9 (by norm_num) (by norm_num),
   c4_chase_pressure_amended.2.2 16 (by norm_num)⟩

/- ──────────────────────── Claim C7 ──────────────────────── -/

/-- C7 counterexample: the claim says the analyzer's required run rate is
always `(first-innings runs + 1)/20`, hence `1/20 = 0.05` when the first
innings scored 0; the code's zero-guard returns `0.0` instead. -/
theorem c7_required_run_rate_counterexample :
    (analyze_match_context zeroRunsMatch).required_run_rate = 0
    ∧ (analyze_match_context zeroRunsMatch).required_run_rate ≠ 1/20 := by
  constructor
  · rfl
  · intro h
    rw [show (analyze_match_context zeroRunsMatch).required_run_rate = 0 from rfl] at h
    norm_num at h

/-- C7 (amended): the Context Analyzer sets
`required_run_rate = (first-innings runs + 1)/20` only when the first innings
scored at least one run; when it scored zero (or fewer) runs the analyzer
falls back to `0.0`, not `1/20`. -/
theorem c7_required_run_rate_amended (m : Match) :
    (analyze_match_context m).required_run_rate =
      if m.first_innings.total_runs > 0
      then ((m.first_innings.total_runs + 1 : ℤ) : ℚ) / 20
      else 0 := rfl

/- ──────────────────────── Claim C8 ──────────────────────── -/
theorem runs_component_go_cons (runs prev_r b : ℤ) (prev_s s : ℚ) (rest : List (ℤ × ℚ)) :
    runs_component_go runs prev_r prev_s ((b, s) :: rest)
      = if runs ≤ b then
          prev_s + ((runs - prev_r : ℤ) : ℚ) / ((b - prev_r : ℤ) : ℚ) * (s - prev_s)
        else runs_component_go runs b s rest := rfl

theorem runs_component_go_nil (runs prev_r : ℤ) (prev_s : ℚ) :
    runs_component_go runs prev_r prev_s [] = 3 := rfl

/-- C8: on every non-negative runs count the source's `_runs_component`
coincides with the spec's control-point interpolation, and the four listed
sample values hold. -/
theorem c8_runs_component :
    (∀ runs : ℤ, 0 ≤ runs → runs_component runs = runs_component_interp runs)
    ∧ runs_component 0 = 0 ∧ runs_component 50 = 2.5
    ∧ runs_component 100 = 3 ∧ runs_component 150 = 3 := by
  have main : ∀ runs : ℤ, 0 ≤ runs → runs_component runs = runs_component_interp runs := by
    intro runs _
    rw [runs_component, runs_component_interp, runs_breakpoints]
    rw [runs_component_go_cons, runs_component_go_cons, runs_component_go_cons,
        runs_component_go_cons, runs_component_go_cons, runs_component_go_cons,
        runs_component_go_cons, runs_component_go_cons, runs_component_go_cons,
        runs_component_go_nil]
    by_cases h0 : runs ≤ 0
    · rw [if_pos h0, if_pos h0]
    rw [if_neg h0, if_neg h0]
    by_cases h1 : runs ≤ 5
    · rw [if_pos h1, if_pos h1]; push_cast; norm_num
    rw [if_neg h1, if_neg h1]
    by_cases h2 : runs ≤ 10
    · rw [if_pos h2, if_pos h2]; push_cast; norm_num
    rw [if_neg h2, if_neg h2]
    by_cases h3 : runs ≤ 15
    · rw [if_pos h3, if_pos h3]; push_cast; norm_num
    rw [if_neg h3, if_neg h3]
    by_cases h4 : runs ≤ 20
    · rw [if_pos h4, if_pos h4]; push_cast; norm_num
    rw [if_neg h4, if_neg h4]
    by_cases h5 : runs ≤ 30
    · rw [if_pos h5, if_pos h5]; push_cast; norm_num
    rw [if_neg h5, if_neg h5]
    by_cases h6 : runs ≤ 40
    · rw [if_pos h6, if_pos h6]; push_cast; norm_num
    rw [if_neg h6, if_neg h6]
    by_cases h7 : runs ≤ 50
    · rw [if_pos h7, if_pos h7]; push_cast; norm_num
    rw [if_neg h7, if_neg h7]
    by_cases h8 : runs ≤ 75
    · rw [if_pos h8, if_pos h8]; push_cast; norm_num
    rw [if_neg h8, if_neg h8]
    by_cases h9 : runs ≤ 100
    · rw [if_pos h9, if_pos h9]; push_cast; norm_num
    rw [if_neg h9, if_neg h9]
  refine ⟨main, ?_, ?_, ?_, ?_⟩
  · rw [main 0 le_rfl]; norm_num [runs_component_interp]
  · rw [main 50 (by norm_num)]; norm_num [runs_component_interp]
  · rw [main 100 (by norm_num)]; norm_num [runs_component_interp]
  · rw [main 150 (by norm_num)]; norm_num [runs_component_interp]

/-- C8 witness: the interpolation identity applied at the concrete input 7. -/
theorem c8_runs_component_witness :
    runs_component 7 = runs_component_interp 7 :=
  c8_runs_component.1 7 (by norm_num)

/- ──────────────────────── Claim C9 ──────────────────────── -/
/-- C9: for every non-negative wicket count `_wickets_component` is the fixed
lookup `{0:0, 1:1.0, 2:1.8, 3:2.5, 4:2.8}` and returns 3.0 from 5 wickets on;
in particular 5 and 7 wickets both map to 3.0. -/
theorem c9_wickets_component :
    (∀ w : ℤ, 0 ≤ w →
      (w = 0 → wickets_component w = 0)
      ∧ (w = 1 → wickets_component w = 1)
      ∧ (w = 2 → wickets_component w = 1.8)
      ∧ (w = 3 → wickets_component w = 2.5)
      ∧ (w = 4 → wickets_component w = 2.8)
      ∧ (5 ≤ w → wickets_component w = 3))
    ∧ wickets_component 5 = 3 ∧ wickets_component 7 = 3 := by
  refine ⟨?_, by norm_num [wickets_component], by norm_num [wickets_component]⟩
  intro w _
  refine ⟨?_, ?_, ?_, ?_, ?_, ?_⟩ <;> intro h
  · subst h; norm_num [wickets_component]
  · subst h; norm_num [wickets_component]
  · subst h; norm_num [wickets_component]
  · subst h; norm_num [wickets_component]
  · subst h; norm_num [wickets_component]
  · unfold wickets_component
    split_ifs <;> first | rfl | (exfalso; omega)

/-- C9 witness: the lookup applied at concrete inputs. -/
theorem c9_wickets_component_witness :
    wickets_component 2 = 1.8 ∧ wickets_component 6 = 3 :=
  ⟨(c9_wickets_component.1 2 (by norm_num)).2.2.1 rfl,
   (c9_wickets_component.1 6 (by norm_num)).2.2.2.2.2 (by norm_num)⟩

/- ──────────────────────── Claim C10 ──────────────────────── -/
/-- C10: a player's fielding rating depends only on the multiset of fielding
events naming that player — two event lists whose sublists of events for `p`
are permutations of each other give `p` the same rating, regardless of any
events naming other players. -/
theorem c10_fielding_local (p : String) (l1 l2 : List FieldingEvent)
    (h : (l1.filter (fun e => e.player_name == p)).Perm
         (l2.filter (fun e => e.player_name == p))) :
    calculate_fielding_rating p l1 = calculate_fielding_rating p l2 := by
  simp only [calculate_fielding_rating]
  rw [List.Perm.sum_eq (List.Perm.map _ h)]

/-- C10 witness: the theorem applied to two concrete event lists that agree
on the events naming "A" but differ on other players' events. -/
theorem c10_fielding_local_witness :
    calculate_fielding_rating "A"
        [⟨"A", .catch⟩, ⟨"B", .misfield⟩, ⟨"A", .stumping⟩]
      = calculate_fielding_rating "A"
        [⟨"A", .catch⟩, ⟨"A", .stumping⟩, ⟨"C", .dropped_catch⟩] :=
  c10_fielding_local "A" _ _ (by decide)

/- ──────────────── Rater/aggregator output-shape lemmas ──────────────── -/
theorem calculate_batting_rating_good (e : BattingEntry) (ctx : MatchContext) (w c : Bool) :
    goodRating (calculate_batting_rating e ctx w c) := by
  unfold calculate_batting_rating
  split
  · exact goodRating_five
  · exact goodRating_round_clamp _

theorem calculate_bowling_rating_good (e : BowlingEntry) (ctx : MatchContext) (w : Bool) :
    goodRating (calculate_bowling_rating e ctx w) := by
  unfold calculate_bowling_rating
  split
  · exact goodRating_five
  · exact goodRating_round_clamp _

theorem calculate_fielding_rating_good (n : String) (evs : List FieldingEvent) :
    goodRating (calculate_fielding_rating n evs) :=
  goodRating_round_clamp _

theorem merge_player_overall_good (tm n : String) (bi : Option RatedBatter)
    (bo : Option RatedBowler) (fi : Option ℚ) :
    goodRating (merge_player tm n bi bo fi).overall_rating :=
  goodRating_clamp_round _

theorem merge_player_name (tm n : String) (bi : Option RatedBatter)
    (bo : Option RatedBowler) (fi : Option ℚ) :
    (merge_player tm n bi bo fi).name = n := rfl

theorem merge_player_fields (tm n : String) (bi : Option RatedBatter)
    (bo : Option RatedBowler) (fi : Option ℚ) :
    (merge_player tm n bi bo fi).batting_rating = (bi.map RatedBatter.rating).getD 5
    ∧ (merge_player tm n bi bo fi).bowling_rating = (bo.map RatedBowler.rating).getD 5
    ∧ (merge_player tm n bi bo fi).fielding_rating = fi.getD 5 := by
  cases bi <;> cases bo <;> cases fi <;> exact ⟨rfl, rfl, rfl⟩

/-- Membership characterisation of the aggregator's output list: a record is
in the output iff it is the merged record of some name occurring in the
batting or bowling rating lists. -/
theorem mem_merge_team_ratings {tm : String} {bl : List RatedBatter}
    {bw : List RatedBowler} {fr : String → Option ℚ} {r : PlayerRating} :
    r ∈ merge_team_ratings tm bl bw fr ↔
      ∃ n ∈ (bl.map (fun x => x.name) ++ bw.map (fun x => x.name)).dedup,
        merge_player tm n ((bl.filter (fun x => x.name == n)).getLast?)
          ((bw.filter (fun x => x.name == n)).getLast?) (fr n) = r := by
  unfold merge_team_ratings
  rw [List.mem_mergeSort, List.mem_map]

theorem merge_team_ratings_good (tm : String) (bl : List RatedBatter)
    (bw : List RatedBowler) (fr : String → Option ℚ)
    (hb : ∀ b ∈ bl, goodRating b.rating)
    (hw : ∀ b ∈ bw, goodRating b.rating)
    (hf : ∀ n q, fr n = some q → goodRating q) :
    ∀ r ∈ merge_team_ratings tm bl bw fr,
      goodRating r.overall_rating ∧ goodRating r.batting_rating
      ∧ goodRating r.bowling_rating ∧ goodRating r.fielding_rating := by
  intro r hr
  rw [mem_merge_team_ratings] at hr
  obtain ⟨n, hn, rfl⟩ := hr
  refine ⟨merge_player_overall_good tm n _ _ _, ?_, ?_, ?_⟩
  · rw [(merge_player_fields tm n _ _ _).1]
    cases hc : (bl.filter (fun x => x.name == n)).getLast? with
    | none => exact goodRating_five
    | some b =>
        simpa using hb b (List.mem_of_mem_filter (List.mem_of_mem_getLast? hc))
  · rw [(merge_player_fields tm n _ _ _).2.1]
    cases hc : (bw.filter (fun x => x.name == n)).getLast? with
    | none => exact goodRating_five
    | some b =>
        simpa using hw b (List.mem_of_mem_filter (List.mem_of_mem_getLast? hc))
  · rw [(merge_player_fields tm n _ _ _).2.2]
    cases hc : fr n with
    | none => exact goodRating_five
    | some q => simpa using hf n q hc

theorem rate_innings_players_batters_good (bi bo : Innings) (evs : List FieldingEvent)
    (ctx : MatchContext) (w1 w2 c : Bool) :
    ∀ b ∈ (rate_innings_players bi bo evs ctx w1 w2 c).batters, goodRating b.rating := by
  intro b hb
  simp only [rate_innings_players, List.mem_map] at hb
  obtain ⟨e, _, rfl⟩ := hb
  exact calculate_batting_rating_good e ctx w1 c

theorem rate_innings_players_bowlers_good (bi bo : Innings) (evs : List FieldingEvent)
    (ctx : MatchContext) (w1 w2 c : Bool) :
    ∀ b ∈ (rate_innings_players bi bo evs ctx w1 w2 c).bowlers, goodRating b.rating := by
  intro b hb
  simp only [rate_innings_players, List.mem_map] at hb
  obtain ⟨e, _, rfl⟩ := hb
  exact calculate_bowling_rating_good e ctx w2

theorem rate_innings_players_fielders_good (bi bo : Innings) (evs : List FieldingEvent)
    (ctx : MatchContext) (w1 w2 c : Bool) :
    ∀ n q, (rate_innings_players bi bo evs ctx w1 w2 c).fielders n = some q → goodRating q := by
  intro n q h
  simp only [rate_innings_players] at h
  by_cases hm : n ∈ evs.map (fun e => e.player_name)
      ++ bo.bowling.map (fun e => e.name) ++ bo.batting.map (fun e => e.name)
  · rw [if_pos hm] at h
    cases h
    exact calculate_fielding_rating_good n evs
  · rw [if_neg hm] at h
    cases h

/- ──────────────────────── Claim C2 ──────────────────────── -/
/-- C2: every rating the engine publishes for a match — overall, batting,
bowling and fielding, on every `PlayerRating` of either team — lies in
`[0, 10]` and is an exact multiple of one tenth (`goodRating`). -/
theorem c2_ratings_good (m : Match) (r : PlayerRating)
    (hr : r ∈ (calculate_match_ratings m).team1.players
        ∨ r ∈ (calculate_match_ratings m).team2.players) :
    goodRating r.overall_rating ∧ goodRating r.batting_rating
    ∧ goodRating r.bowling_rating ∧ goodRating r.fielding_rating := by
  rcases hr with h | h
  · exact merge_team_ratings_good _ _ _ _
      (rate_innings_players_batters_good _ _ _ _ _ _ _)
      (rate_innings_players_bowlers_good _ _ _ _ _ _ _)
      (rate_innings_players_fielders_good _ _ _ _ _ _ _) r h
  · exact merge_team_ratings_good _ _ _ _
      (rate_innings_players_batters_good _ _ _ _ _ _ _)
      (rate_innings_players_bowlers_good _ _ _ _ _ _ _)
      (rate_innings_players_fielders_good _ _ _ _ _ _ _) r h

/- C2 witness: the theorem applied to a concrete match and a concrete member
of its output. -/
unseal Rat.mul Rat.add Rat.sub Rat.inv Rat.ofScientific in

theorem c2_ratings_good_witness :
    goodRating c2WitnessRating.overall_rating
    ∧ goodRating c2WitnessRating.batting_rating
    ∧ goodRating c2WitnessRating.bowling_rating
    ∧ goodRating c2WitnessRating.fielding_rating :=
  c2_ratings_good c2WitnessMatch c2WitnessRating
    (Or.inl (by show _ ∈ List.mergeSort _ _
                rw [List.mem_mergeSort]
                decide))

/- ──────────────── Lookup lemmas for the aggregator output ──────────────── -/
theorem find?_eq_some_of_unique {α : Type} {l : List α} {p : α → Bool} {a : α}
    (ha : a ∈ l) (hpa : p a = true) (huniq : ∀ b ∈ l, p b = true → b = a) :
    l.find? p = some a := by
  induction l with
  | nil => cases ha
  | cons x xs ih =>
      by_cases hx : p x = true
      · rw [List.find?_cons_of_pos _ hx, huniq x (List.mem_cons_self x xs) hx]
      · rw [List.find?_cons_of_neg _ (by simpa using hx)]
        rcases List.mem_cons.mp ha with rfl | hmem
        · exact absurd hpa hx
        · exact ih hmem (fun b hb hpb => huniq b (List.mem_cons_of_mem x hb) hpb)

theorem filter_key_eq_singleton {α : Type} (key : α → String) (e : α) :
    ∀ (l : List α), (l.map key).Nodup → e ∈ l →
      l.filter (fun x => key x == key e) = [e] := by
  intro l
  induction l with
  | nil => intro _ h; cases h
  | cons a t ih =>
      intro hnd he
      rw [List.map_cons] at hnd
      have hnd' := List.nodup_cons.mp hnd
      rcases List.mem_cons.mp he with rfl | ht
      · rw [List.filter_cons_of_pos (by simp)]
        have : t.filter (fun x => key x == key e) = [] := by
          rw [List.filter_eq_nil_iff]
          intro x hx
          simp only [beq_iff_eq]
          intro hk
          exact hnd'.1 (hk ▸ List.mem_map_of_mem key hx)
        rw [this]
      · have hne : ¬ (key a == key e) = true := by
          simp only [beq_iff_eq]
          intro hk
          exact hnd'.1 (hk ▸ List.mem_map_of_mem key ht)
        rw [List.filter_cons_of_neg (by simpa using hne)]
        exact ih hnd'.2 ht

/-- `find?` on the aggregator output: the merged record of `p` when `p`
occurs in the batting or bowling lists, `none` otherwise. -/
theorem find?_merge_team (tm : String) (bl : List RatedBatter)
    (bw : List RatedBowler) (fr : String → Option ℚ) (p : String) :
    (merge_team_ratings tm bl bw fr).find? (fun r => r.name == p)
      = if p ∈ (bl.map (fun x => x.name) ++ bw.map (fun x => x.name))
        then some (merge_player tm p ((bl.filter (fun x => x.name == p)).getLast?)
              ((bw.filter (fun x => x.name == p)).getLast?) (fr p))
        else none := by
  split_ifs with hp
  · apply find?_eq_some_of_unique
    · rw [mem_merge_team_ratings]
      exact ⟨p, List.mem_dedup.mpr hp, rfl⟩
    · simp [merge_player_name]
    · intro b hb hpb
      rw [mem_merge_team_ratings] at hb
      obtain ⟨n, _, rfl⟩ := hb
      have : n = p := by simpa [merge_player_name] using hpb
      rw [this]
  · rw [List.find?_eq_none]
    intro x hx
    rw [mem_merge_team_ratings] at hx
    obtain ⟨n, hn, rfl⟩ := hx
    simp only [merge_player_name, beq_iff_eq]
    intro hk
    exact hp (hk ▸ List.mem_dedup.mp hn)

theorem team1_players_eq (m : Match) :
    (calculate_match_ratings m).team1.players
      = merge_team_ratings m.first_innings.team_name
          (rate_innings_players m.first_innings m.second_innings
            m.first_innings.fielding_events (analyze_match_context m)
            (m.winner == m.first_innings.team_name)
            (m.winner == m.second_innings.team_name) false).batters
          (rate_innings_players m.second_innings m.first_innings
            m.second_innings.fielding_events (analyze_match_context m)
            (m.winner == m.second_innings.team_name)
            (m.winner == m.first_innings.team_name) true).bowlers
          (rate_innings_players m.second_innings m.first_innings
            m.second_innings.fielding_events (analyze_match_context m)
            (m.winner == m.second_innings.team_name)
            (m.winner == m.first_innings.team_name) true).fielders := rfl

theorem team2_players_eq (m : Match) :
    (calculate_match_ratings m).team2.players
      = merge_team_ratings m.second_innings.team_name
          (rate_innings_players m.second_innings m.first_innings
            m.second_innings.fielding_events (analyze_match_context m)
            (m.winner == m.second_innings.team_name)
            (m.winner == m.first_innings.team_name) true).batters
          (rate_innings_players m.first_innings m.second_innings
            m.first_innings.fielding_events (analyze_match_context m)
            (m.winner == m.first_innings.team_name)
            (m.winner == m.second_innings.team_name) false).bowlers
          (rate_innings_players m.first_innings m.second_innings
            m.first_innings.fielding_events (analyze_match_context m)
            (m.winner == m.first_innings.team_name)
            (m.winner == m.second_innings.team_name) false).fielders := rfl

theorem rate_batters_eq (bi bo : Innings) (evs : List FieldingEvent)
    (ctx : MatchContext) (w1 w2 c : Bool) :
    (rate_innings_players bi bo evs ctx w1 w2 c).batters
      = bi.batting.map (fun entry =>
          { name := entry.name, role := entry.role
            rating := calculate_batting_rating entry ctx w1 c
            did_bat := entry.did_bat, balls := entry.balls }) := rfl

theorem rate_bowlers_eq (bi bo : Innings) (evs : List FieldingEvent)
    (ctx : MatchContext) (w1 w2 c : Bool) :
    (rate_innings_players bi bo evs ctx w1 w2 c).bowlers
      = bo.bowling.map (fun entry =>
          { name := entry.name, role := entry.role
            rating := calculate_bowling_rating entry ctx w2
            did_bowl := entry.did_bowl, total_balls := entry.total_balls }) := rfl

theorem rate_fielders_eq (bi bo : Innings) (evs : List FieldingEvent)
    (ctx : MatchContext) (w1 w2 c : Bool) :
    (rate_innings_players bi bo evs ctx w1 w2 c).fielders
      = fun n => if n ∈ evs.map (fun e => e.player_name)
            ++ bo.bowling.map (fun x => x.name) ++ bo.batting.map (fun x => x.name)
          then some (calculate_fielding_rating n evs) else none := rfl

theorem find_bowling_in_merge (tm : String) (bl : List RatedBatter)
    (l : List BowlingEntry) (ctx : MatchContext) (wf : Bool)
    (fr : String → Option ℚ) (e : BowlingEntry)
    (he : e ∈ l) (hnd : (l.map (fun x => x.name)).Nodup) :
    ((merge_team_ratings tm bl
        (l.map (fun entry =>
          { name := entry.name, role := entry.role
            rating := calculate_bowling_rating entry ctx wf
            did_bowl := entry.did_bowl, total_balls := entry.total_balls : RatedBowler }))
        fr).find? (fun r => r.name == e.name)).map (fun r => r.bowling_rating)
      = some (calculate_bowling_rating e ctx wf) := by
  set rateFn := fun entry : BowlingEntry =>
    ({ name := entry.name, role := entry.role
       rating := calculate_bowling_rating entry ctx wf
       did_bowl := entry.did_bowl, total_balls := entry.total_balls } : RatedBowler) with hrateFn
  have hmem : e.name ∈ (bl.map (fun x => x.name) ++ (l.map rateFn).map (fun x => x.name)) := by
    refine List.mem_append_right _ ?_
    rw [List.map_map]
    exact List.mem_map_of_mem _ he
  rw [find?_merge_team, if_pos hmem]
  have hsing : (l.map rateFn).filter (fun x => x.name == e.name) = [rateFn e] :=
    filter_key_eq_singleton RatedBowler.name (rateFn e) (l.map rateFn)
      (by rw [List.map_map]; exact hnd) (List.mem_map_of_mem _ he)
  rw [Option.map_some', (merge_player_fields _ _ _ _ _).2.1, hsing]
  rfl

/- ──────────────────────── Claim C1 ──────────────────────── -/

/-- C1 counterexample: in `c1Match`, built per the spec's convention, the
first-innings bowler "P2" (a player of the second-batting team "T2") gets no
record in team2's output list — the claim places it there — while a record
for "P2" does appear in team1's list. -/
theorem c1_attribution_counterexample :
    c1Match.first_innings.bowling.map (fun e => e.name) = ["P2"]
    ∧ (calculate_match_ratings c1Match).team2.name = "T2"
    ∧ ((calculate_match_ratings c1Match).team2.players.find?
        (fun r => r.name == "P2")) = none
    ∧ ((calculate_match_ratings c1Match).team1.players.find?
        (fun r => r.name == "P2")).isSome = true := by
  refine ⟨rfl, rfl, ?_, ?_⟩
  · rw [team2_players_eq, find?_merge_team, if_neg]
    decide
  · rw [team1_players_eq, find?_merge_team, if_pos (by decide)]
    rfl

/-- C1 (amended): `calculate_match_ratings` merges each first-innings bowling
entry's rating into TEAM1's (the first-batting side's) player list and each
second-innings entry's into TEAM2's — the opposite of the claim. Under the
spec's §3 convention the first-innings bowlers are the second-batting team's
players, so each bowling entry is attributed to the other team's output list;
equivalently, the code expects each innings' bowling list to hold the
innings' *batting* team's own bowling figures (the convention `app.py`
produces by swapping the two bowling lists). -/
theorem c1_attribution_amended (m : Match) :
    (∀ e ∈ m.first_innings.bowling,
        (m.first_innings.bowling.map (fun x => x.name)).Nodup →
        ((calculate_match_ratings m).team1.players.find?
            (fun r => r.name == e.name)).map (fun r => r.bowling_rating)
          = some (calculate_bowling_rating e (analyze_match_context m)
              (m.winner == m.first_innings.team_name)))
    ∧ (∀ e ∈ m.second_innings.bowling,
        (m.second_innings.bowling.map (fun x => x.name)).Nodup →
        ((calculate_match_ratings m).team2.players.find?
            (fun r => r.name == e.name)).map (fun r => r.bowling_rating)
          = some (calculate_bowling_rating e (analyze_match_context m)
              (m.winner == m.second_innings.team_name))) := by
  constructor
  · intro e he hnd
    rw [team1_players_eq, rate_bowlers_eq]
    exact find_bowling_in_merge _ _ _ _ _ _ e he hnd
  · intro e he hnd
    rw [team2_players_eq, rate_bowlers_eq]
    exact find_bowling_in_merge _ _ _ _ _ _ e he hnd

/- C1 witness: the amended attribution applied to the concrete match. -/
unseal Rat.mul Rat.add Rat.sub Rat.inv Rat.ofScientific in

theorem c1_attribution_witness :
    ((calculate_match_ratings c1Match).team1.players.find?
        (fun r => r.name == "P2")).map (fun r => r.bowling_rating)
      = some (calculate_bowling_rating
          { name := "P2", overs := 4, runs_conceded := 30, wickets := 1 }
          (analyze_match_context c1Match)
          (c1Match.winner == c1Match.first_innings.team_name)) :=
  (c1_attribution_amended c1Match).1
    { name := "P2", overs := 4, runs_conceded := 30, wickets := 1 }
    (by decide) (by decide)

/- ──────────────────────── Claim C3 ──────────────────────── -/

/-- C3 counterexample: "F" is a fielding-event subject of `c3Match` who
appears in no batting or bowling entry, yet `calculate_match_ratings`
returns no `PlayerRating` at all for "F" on either team — contradicting the
claim that such a player gets a record whose overall equals the fielding
rating. -/
theorem c3_fielding_only_counterexample :
    c3Match.second_innings.fielding_events = [⟨"F", .catch⟩]
    ∧ (c3Match.first_innings.batting.map (fun b => b.name)
        ++ c3Match.first_innings.bowling.map (fun e => e.name)
        ++ c3Match.second_innings.batting.map (fun b => b.name)
        ++ c3Match.second_innings.bowling.map (fun e => e.name)) = ["P1"]
    ∧ ((calculate_match_ratings c3Match).team1.players.find?
        (fun r => r.name == "F")) = none
    ∧ ((calculate_match_ratings c3Match).team2.players.find?
        (fun r => r.name == "F")) = none := by
  refine ⟨rfl, rfl, ?_, ?_⟩
  · rw [team1_players_eq, find?_merge_team, if_neg]
    decide
  · rw [team2_players_eq, find?_merge_team, if_neg]
    decide

/-- C3 (amended): the aggregator only ever returns records for names that
occur in some batting or bowling entry; a fielding-event-only subject is
silently dropped (its fielding rating is computed but never merged), so no
`PlayerRating` exists for it. Players who do appear in entries but neither
batted nor bowled still get `overall = fielding rating` (claim C5's third
part); the fielding-only-participant clause of the claim is what fails. -/
theorem c3_fielding_only_amended (m : Match) (r : PlayerRating) :
    (r ∈ (calculate_match_ratings m).team1.players →
        r.name ∈ m.first_innings.batting.map (fun b => b.name)
          ++ m.first_innings.bowling.map (fun e => e.name))
    ∧ (r ∈ (calculate_match_ratings m).team2.players →
        r.name ∈ m.second_innings.batting.map (fun b => b.name)
          ++ m.second_innings.bowling.map (fun e => e.name)) := by
  constructor
  · intro h
    rw [team1_players_eq] at h
    rw [mem_merge_team_ratings] at h
    obtain ⟨n, hn, rfl⟩ := h
    rw [merge_player_name]
    have hn' := List.mem_dedup.mp hn
    rw [rate_batters_eq, rate_bowlers_eq, List.map_map, List.map_map] at hn'
    exact hn'
  · intro h
    rw [team2_players_eq] at h
    rw [mem_merge_team_ratings] at h
    obtain ⟨n, hn, rfl⟩ := h
    rw [merge_player_name]
    have hn' := List.mem_dedup.mp hn
    rw [rate_batters_eq, rate_bowlers_eq, List.map_map, List.map_map] at hn'
    exact hn'

/- C3 witness: the amended theorem applied to the concrete match and its one
output record. -/
unseal Rat.mul Rat.add Rat.sub Rat.inv Rat.ofScientific in

theorem c3_fielding_only_witness :
    c3WitnessRating.name ∈ c3Match.first_innings.batting.map (fun b => b.name)
      ++ c3Match.first_innings.bowling.map (fun e => e.name) :=
  (c3_fielding_only_amended c3Match c3WitnessRating).1
    (by show _ ∈ List.mergeSort _ _
        rw [List.mem_mergeSort]
        decide)

/- ──────────────────────── Claim C5 ──────────────────────── -/
/-- C5: a "did not bat" batting entry is rated exactly 5.0, and that value
carries zero weight in the overall rating: with `did_bat = false` the merged
overall is (i) unchanged under any change of the batting sub-rating,
(ii) the clamped rounding of the fielding rating alone when the player also
did not bowl, and (iii) the clamped rounding of the renormalized weighted
average of bowling and fielding only when the player bowled (with the role's
bowling/fielding weights, batting weight dropped). -/
theorem c5_dnb_zero_weight :
    (∀ (entry : BattingEntry) (ctx : MatchContext) (w c : Bool),
        entry.dismissal = DismissalType.did_not_bat →
        calculate_batting_rating entry ctx w c = 5)
    ∧ (∀ (tm n : String) (b : RatedBatter) (bo : Option RatedBowler)
          (fi : Option ℚ) (q q' : ℚ),
        b.did_bat = false →
        (merge_player tm n (some { b with rating := q }) bo fi).overall_rating
          = (merge_player tm n (some { b with rating := q' }) bo fi).overall_rating)
    ∧ (∀ (tm n : String) (b : RatedBatter) (bo : Option RatedBowler) (fi : Option ℚ),
        b.did_bat = false → (bo.map RatedBowler.did_bowl).getD false = false →
        (merge_player tm n (some b) bo fi).overall_rating
          = max 0 (min 10 (pyRound1 (fi.getD 5))))
    ∧ (∀ (tm n : String) (b : RatedBatter) (bo : RatedBowler) (fi : Option ℚ),
        b.did_bat = false → b.balls < 6 → bo.did_bowl = true →
        (merge_player tm n (some b) (some bo) fi).overall_rating
          = max 0 (min 10 (pyRound1
              ((bo.rating * (role_weights b.role).2.1
                  + (fi.getD 5) * (role_weights b.role).2.2)
                / ((role_weights b.role).2.1 + (role_weights b.role).2.2))))) := by
  refine ⟨?_, ?_, ?_, ?_⟩
  · intro entry ctx w c h
    have hdb : entry.did_bat = false := by
      simp [BattingEntry.did_bat, h]
    simp [calculate_batting_rating, hdb]
  · intro tm n b bo fi q q' hdb
    obtain ⟨bn, brole, brat, bdid, bballs⟩ := b
    simp only at hdb
    subst hdb
    cases bo <;> simp [merge_player]
  · intro tm n b bo fi hdb hdw
    obtain ⟨bn, brole, brat, bdid, bballs⟩ := b
    simp only at hdb
    subst hdb
    cases bo with
    | none => cases fi <;> simp [merge_player]
    | some x =>
        obtain ⟨wn, wrole, wrat, wdid, wballs⟩ := x
        simp only [Option.map_some', Option.getD_some] at hdw
        subst hdw
        cases fi <;> simp [merge_player]
  · intro tm n b bo fi hdb hlt hdw
    obtain ⟨bn, brole, brat, bdid, bballs⟩ := b
    obtain ⟨wn, wrole, wrat, wdid, wballs⟩ := bo
    simp only at hdb hlt hdw
    subst hdb
    subst hdw
    have hb6 : decide (bballs ≥ 6) = false := decide_eq_false (by omega)
    cases brole <;> cases fi <;>
      (simp [merge_player, role_weights, hb6] <;> rw [if_pos (by norm_num)])

/-- C5 witness: each part of the theorem applied at concrete inputs. -/
theorem c5_dnb_zero_weight_witness :
    calculate_batting_rating { name := "W", dismissal := .did_not_bat } {} false false = 5
    ∧ (merge_player "T" "W"
          (some { name := "W", role := .bowler, rating := 2, did_bat := false, balls := 0 })
          (some { name := "W", role := .bowler, rating := 7, did_bowl := true, total_balls := 24 })
          (some 6)).overall_rating
        = (merge_player "T" "W"
            (some { name := "W", role := .bowler, rating := 9, did_bat := false, balls := 0 })
            (some { name := "W", role := .bowler, rating := 7, did_bowl := true, total_balls := 24 })
            (some 6)).overall_rating
    ∧ (merge_player "T" "W"
          (some { name := "W", role := .batter, rating := 3, did_bat := false, balls := 0 })
          none (some 6)).overall_rating
        = max 0 (min 10 (pyRound1 ((some (6 : ℚ)).getD 5)))
    ∧ (merge_player "T" "W"
          (some { name := "W", role := .bowler, rating := 3, did_bat := false, balls := 0 })
          (some { name := "W", role := .bowler, rating := 7, did_bowl := true, total_balls := 24 })
          (some 6)).overall_rating
        = max 0 (min 10 (pyRound1
            ((7 * (role_weights PlayerRole.bowler).2.1
                + ((some (6 : ℚ)).getD 5) * (role_weights PlayerRole.bowler).2.2)
              / ((role_weights PlayerRole.bowler).2.1
                + (role_weights PlayerRole.bowler).2.2)))) :=
  ⟨c5_dnb_zero_weight.1 { name := "W", dismissal := .did_not_bat } {} false false rfl,
   c5_dnb_zero_weight.2.1 "T" "W"
     { name := "W", role := .bowler, rating := 0, did_bat := false, balls := 0 }
     (some { name := "W", role := .bowler, rating := 7, did_bowl := true, total_balls := 24 })
     (some 6) 2 9 rfl,
   c5_dnb_zero_weight.2.2.1 "T" "W"
     { name := "W", role := .batter, rating := 3, did_bat := false, balls := 0 }
     none (some 6) rfl rfl,
   c5_dnb_zero_weight.2.2.2 "T" "W"
     { name := "W", role := .bowler, rating := 3, did_bat := false, balls := 0 }
     { name := "W", role := .bowler, rating := 7, did_bowl := true, total_balls := 24 }
     (some 6) rfl (by decide) rfl⟩

/- ──────────────────────── Claim C6 ──────────────────────── -/
theorem filter_map_of_removed (l : List BattingEntry) (p : String)
    (f : BattingEntry → RatedBatter) (hk : ∀ a, (f a).name = a.name) :
    ((l.filter (fun b => !(b.name == p))).map f).filter (fun r => r.name == p) = [] := by
  rw [List.filter_eq_nil_iff]
  intro x hx
  rw [List.mem_map] at hx
  obtain ⟨a, ha, rfl⟩ := hx
  have hpa := List.of_mem_filter ha
  simp only [Bool.not_eq_true'] at hpa
  simp [hk, hpa]

/-- Negligible-batting override at the merge level: for a bowler-role player
with a sub-6-ball batting row, the batting weight is zeroed and redistributed
proportionally, so the merged overall equals the one computed with no batting
row at all. -/
theorem merge_player_cameo (tm p : String) (rb : RatedBatter) (rw' : RatedBowler)
    (fq : Option ℚ) (h1 : rb.balls < 6) (h2 : rb.role = PlayerRole.bowler)
    (h3 : rw'.role = PlayerRole.bowler) (h4 : rw'.did_bowl = true) :
    (merge_player tm p (some rb) (some rw') fq).overall_rating
      = (merge_player tm p none (some rw') fq).overall_rating := by
  obtain ⟨bn, brole, brat, bdid, bballs⟩ := rb
  obtain ⟨wn, wrole, wrat, wdid, wballs⟩ := rw'
  simp only at h1 h2 h3 h4
  subst h2
  subst h3
  subst h4
  have hb6 : decide (bballs ≥ 6) = false := decide_eq_false (by omega)
  have hblt : decide (bballs < 6) = true := decide_eq_true h1
  cases bdid with
  | false =>
      simp only [merge_player, role_weights, hb6, hblt, Bool.and_false, Bool.false_and,
        Bool.and_true, Bool.true_and, Bool.not_false, Bool.not_true, Bool.false_or,
        Bool.or_false, if_false, if_true, Bool.false_eq_true, ite_false, ite_true]
      norm_num
  | true =>
      simp only [merge_player, role_weights, hb6, hblt, Bool.and_false, Bool.false_and,
        Bool.and_true, Bool.true_and, Bool.not_false, Bool.not_true, Bool.false_or,
        Bool.or_false, if_false, if_true, Bool.false_eq_true, ite_false, ite_true]
      norm_num
      ring_nf

/-- C6 at the aggregator level, for abstract rater functions that preserve
name, balls, role and did-bowl: removing the sub-6-ball batting row of a
bowler does not change the merged overall of that player. -/
theorem c6_merge (tm p : String) (fb : BattingEntry → RatedBatter)
    (fw : BowlingEntry → RatedBowler) (batl : List BattingEntry)
    (bowl : List BowlingEntry) (fr1 fr2 : String → Option ℚ)
    (hfbn : ∀ a, (fb a).name = a.name) (hfbb : ∀ a, (fb a).balls = a.balls)
    (hfbr : ∀ a, (fb a).role = a.role)
    (hfwn : ∀ a, (fw a).name = a.name) (hfwr : ∀ a, (fw a).role = a.role)
    (hfwd : ∀ a, (fw a).did_bowl = a.did_bowl)
    (hfr : fr1 p = fr2 p)
    (hbat : ∀ b ∈ batl, b.name = p → (b.balls < 6 ∧ b.role = PlayerRole.bowler))
    (hbowl : ∀ e ∈ bowl, e.name = p → (e.role = PlayerRole.bowler ∧ 0 < e.total_balls))
    (hex : ∃ e ∈ bowl, e.name = p) :
    ((merge_team_ratings tm (batl.map fb) (bowl.map fw) fr1).find?
        (fun r => r.name == p)).map (fun r => r.overall_rating)
      = ((merge_team_ratings tm ((batl.filter (fun b => !(b.name == p))).map fb)
            (bowl.map fw) fr2).find? (fun r => r.name == p)).map
          (fun r => r.overall_rating) := by
  rw [find?_merge_team, find?_merge_team]
  have hbw : p ∈ (bowl.map fw).map (fun x => x.name) := by
    rw [List.map_map, List.mem_map]
    obtain ⟨e0, he0, hep0⟩ := hex
    exact ⟨e0, he0, by simp [Function.comp, hfwn, hep0]⟩
  rw [if_pos (List.mem_append_right _ hbw), if_pos (List.mem_append_right _ hbw)]
  rw [Option.map_some', Option.map_some', hfr]
  rw [filter_map_of_removed batl p fb hfbn, List.getLast?_nil]
  cases hb : (List.filter (fun x => x.name == p) (batl.map fb)).getLast? with
  | none => rfl
  | some rb =>
      have hrbmem := List.mem_filter.mp (List.mem_of_mem_getLast? hb)
      have hrbp := hrbmem.2
      obtain ⟨b, hbmem, rfl⟩ := List.mem_map.mp hrbmem.1
      have hbp : b.name = p := by rw [hfbn] at hrbp; exact eq_of_beq hrbp
      obtain ⟨hblt, hbrole⟩ := hbat b hbmem hbp
      cases hw2 : (List.filter (fun x => x.name == p) (bowl.map fw)).getLast? with
      | none =>
          exfalso
          rw [List.getLast?_eq_none_iff] at hw2
          obtain ⟨e0, he0, hep0⟩ := hex
          have hmem0 : fw e0 ∈ List.filter (fun x => x.name == p) (bowl.map fw) := by
            rw [List.mem_filter]
            exact ⟨List.mem_map_of_mem fw he0, by simp [hfwn, hep0]⟩
          rw [hw2] at hmem0
          cases hmem0
      | some rw' =>
          have hmemw := List.mem_filter.mp (List.mem_of_mem_getLast? hw2)
          have hp2 := hmemw.2
          obtain ⟨e', he', rfl⟩ := List.mem_map.mp hmemw.1
          have hep' : e'.name = p := by rw [hfwn] at hp2; exact eq_of_beq hp2
          obtain ⟨hrole', hballs'⟩ := hbowl e' he' hep'
          exact congrArg some (merge_player_cameo tm p (fb b) (fw e') (fr2 p)
            (by rw [hfbb]; exact hblt) (by rw [hfbr]; exact hbrole)
            (by rw [hfwr]; exact hrole')
            (by rw [hfwd]; exact decide_eq_true hballs'))

/-- C6: for a bowler-role player `p` of either team who bowled and whose
batting entries (in that team's batting innings) all faced fewer than 6
balls, the overall rating published for `p` is identical whether or not the
batting entry is included in the input match: the negligible-batting
override forces the batting weight to 0 and redistributes it proportionally
onto bowling and fielding. The first conjunct covers a team1 player (entries
in the first innings, record in team1's list), the second a team2 player
(entries in the second innings, record in team2's list); together they cover
every bowler of the match. -/
theorem c6_cameo_invariant (m : Match) (p : String) :
    ((∀ b ∈ m.first_innings.batting, b.name = p →
        (b.balls < 6 ∧ b.role = PlayerRole.bowler)) →
     (∀ e ∈ m.first_innings.bowling, e.name = p →
        (e.role = PlayerRole.bowler ∧ 0 < e.total_balls)) →
     (∃ e ∈ m.first_innings.bowling, e.name = p) →
     ((calculate_match_ratings m).team1.players.find? (fun r => r.name == p)).map
        (fun r => r.overall_rating)
       = ((calculate_match_ratings (removeBatting m p)).team1.players.find?
           (fun r => r.name == p)).map (fun r => r.overall_rating))
    ∧ ((∀ b ∈ m.second_innings.batting, b.name = p →
        (b.balls < 6 ∧ b.role = PlayerRole.bowler)) →
     (∀ e ∈ m.second_innings.bowling, e.name = p →
        (e.role = PlayerRole.bowler ∧ 0 < e.total_balls)) →
     (∃ e ∈ m.second_innings.bowling, e.name = p) →
     ((calculate_match_ratings m).team2.players.find? (fun r => r.name == p)).map
        (fun r => r.overall_rating)
       = ((calculate_match_ratings (removeBattingSecond m p)).team2.players.find?
           (fun r => r.name == p)).map (fun r => r.overall_rating)) := by
  constructor
  · intro hbat hbowl hex
    obtain ⟨e0, he0, hep0⟩ := hex
    have hctx : analyze_match_context (removeBatting m p) = analyze_match_context m := rfl
    have hsi : (removeBatting m p).second_innings = m.second_innings := rfl
    have hw : (removeBatting m p).winner = m.winner := rfl
    have hfi : (removeBatting m p).first_innings
        = { m.first_innings with
              batting := m.first_innings.batting.filter (fun b => !(b.name == p)) } := rfl
    rw [team1_players_eq m, team1_players_eq (removeBatting m p)]
    simp only [hctx, hsi, hw, hfi]
    rw [rate_batters_eq, rate_batters_eq, rate_bowlers_eq, rate_bowlers_eq]
    dsimp only
    have hpb : p ∈ m.first_innings.bowling.map (fun x => x.name) :=
      List.mem_map.mpr ⟨e0, he0, hep0⟩
    apply c6_merge _ p _ _ _ _ _ _
      (fun a => rfl) (fun a => rfl) (fun a => rfl) (fun a => rfl) (fun a => rfl) (fun a => rfl)
      ?_ hbat hbowl ⟨e0, he0, hep0⟩
    rw [rate_fielders_eq, rate_fielders_eq]
    dsimp only
    split_ifs with hA hB
    · rfl
    · exact absurd (List.mem_append_left _ (List.mem_append_right _ hpb)) hB
    · exact absurd (List.mem_append_left _ (List.mem_append_right _ hpb)) hA
    · rfl
  · intro hbat hbowl hex
    obtain ⟨e0, he0, hep0⟩ := hex
    have hctx : analyze_match_context (removeBattingSecond m p) = analyze_match_context m := rfl
    have hfi : (removeBattingSecond m p).first_innings = m.first_innings := rfl
    have hw : (removeBattingSecond m p).winner = m.winner := rfl
    have hsi : (removeBattingSecond m p).second_innings
        = { m.second_innings with
              batting := m.second_innings.batting.filter (fun b => !(b.name == p)) } := rfl
    rw [team2_players_eq m, team2_players_eq (removeBattingSecond m p)]
    simp only [hctx, hfi, hw, hsi]
    rw [rate_batters_eq, rate_batters_eq, rate_bowlers_eq, rate_bowlers_eq]
    dsimp only
    have hpb : p ∈ m.second_innings.bowling.map (fun x => x.name) :=
      List.mem_map.mpr ⟨e0, he0, hep0⟩
    apply c6_merge _ p _ _ _ _ _ _
      (fun a => rfl) (fun a => rfl) (fun a => rfl) (fun a => rfl) (fun a => rfl) (fun a => rfl)
      ?_ hbat hbowl ⟨e0, he0, hep0⟩
    rw [rate_fielders_eq, rate_fielders_eq]
    dsimp only
    split_ifs with hA hB
    · rfl
    · exact absurd (List.mem_append_left _ (List.mem_append_right _ hpb)) hB
    · exact absurd (List.mem_append_left _ (List.mem_append_right _ hpb)) hA
    · rfl

/- C6 witness: both parts of the theorem applied to the concrete match —
team1's bowler "PB" with his first-innings cameo, and team2's bowler "Q1"
with his second-innings cameo. -/
unseal Rat.mul Rat.add Rat.sub Rat.inv Rat.ofScientific in

theorem c6_cameo_invariant_witness :
    (((calculate_match_ratings c6WitnessMatch).team1.players.find?
        (fun r => r.name == "PB")).map (fun r => r.overall_rating)
      = ((calculate_match_ratings (removeBatting c6WitnessMatch "PB")).team1.players.find?
          (fun r => r.name == "PB")).map (fun r => r.overall_rating))
    ∧ (((calculate_match_ratings c6WitnessMatch).team2.players.find?
        (fun r => r.name == "Q1")).map (fun r => r.overall_rating)
      = ((calculate_match_ratings (removeBattingSecond c6WitnessMatch "Q1")).team2.players.find?
          (fun r => r.name == "Q1")).map (fun r => r.overall_rating)) :=
  ⟨(c6_cameo_invariant c6WitnessMatch "PB").1 (by decide) (by decide) (by decide),
   (c6_cameo_invariant c6WitnessMatch "Q1").2 (by decide) (by decide) (by decide)⟩
